import Mathlib

/-!
Verification of the euicc-go SGP.22 client library against its specification.

The development shallowly embeds the Go sources under `src/`:
`v2/euiccinfo2.go` (EUICCInfo2 / ExtCardResource / CertificationDataObject
unmarshalling, bit-string, version and PKId-list value codecs), the lpa
discovery and notification-processing functions, and — where the repository's
`bertlv` package is referenced but not present under `src/` — a model of the
BER-TLV codec written from the specification (spec.md §3, §4.1, §4.2).

Go byte slices are `List Nat` (each element a byte value), Go strings are
Lean `String`, fallible Go functions returning `error` become `Except`.
-/

set_option maxRecDepth 4000

/-- Modelled from the spec: BER-TLV tag class (spec.md §3 "Tag": universal /
application / context-specific / private).  The repository's `bertlv` package
is not under `src/`; only its callers are. -/
inductive BClass
  | universal
  | application
  | contextSpecific
  | priv
  deriving DecidableEq, BEq, Repr

/-- Modelled from the spec: BER-TLV tag form, the constructed-flag of
spec.md §3 "Tag" (primitive versus constructed). -/
inductive BForm
  | primitive
  | constructed
  deriving DecidableEq, BEq, Repr

/-- Modelled from the spec: a BER-TLV tag is class, constructed-flag and
number (spec.md §3 "Tag", an immutable value type). -/
structure Tag where
  cls : BClass
  form : BForm
  number : Nat
  deriving DecidableEq, BEq, Repr

/-- Modelled from the spec: the `bertlv.Tag.If(class, form, number)` predicate
used by the structure layer to "dispatch strictly by each child's exact
(class, form, number) triple" (spec.md §4.3 step 2). -/
def Tag.If (t : Tag) (c : BClass) (f : BForm) (n : Nat) : Bool :=
  t.cls == c && t.form == f && t.number == n

/-- Modelled from the spec: a TLV node carries tag, raw value bytes, and an
ordered list of child nodes, populated only when constructed (spec.md §3). -/
structure TLV where
  tag : Tag
  value : List Nat
  children : List TLV

/-- Modelled from the spec: codec-level decode failures of spec.md §4.1 and
§7 (`MalformedEncoding`, `UnsupportedEncoding`). -/
inductive CodecErr
  | malformedEncoding
  | unsupportedEncoding
  deriving DecidableEq, Repr

/-- Modelled from the spec: base-128 continuation octets of a high tag number
 — "number continues in following base-128 octets until one has its high bit
clear" (spec.md §4.1); running out of bytes is a malformed encoding. -/
def readBase128 : Nat → List Nat → Except CodecErr (Nat × List Nat)
  | _, [] => .error .malformedEncoding
  | acc, b :: rest =>
    if b &&& 0x80 ≠ 0 then readBase128 (acc * 128 + (b &&& 0x7F)) rest
    else .ok (acc * 128 + b, rest)

/-- Modelled from the spec: tag decoding — "first byte's top 2 bits = class,
bit 6 = constructed flag, low 5 bits = number, or if those 5 bits are all set,
number continues in following base-128 octets" (spec.md §4.1). -/
def decodeTag : List Nat → Except CodecErr (Tag × List Nat)
  | [] => .error .malformedEncoding
  | b :: rest =>
    let cls : BClass :=
      match b >>> 6 with
      | 0 => .universal
      | 1 => .application
      | 2 => .contextSpecific
      | _ => .priv
    let form : BForm := if b &&& 0x20 ≠ 0 then .constructed else .primitive
    let low := b &&& 0x1F
    if low = 0x1F then
      match readBase128 0 rest with
      | .error e => .error e
      | .ok (n, r) => .ok (⟨cls, form, n⟩, r)
    else .ok (⟨cls, form, low⟩, rest)

/-- Modelled from the spec: length decoding — "short form (<0x80) literal;
long form's low 7 bits = count of following big-endian length octets; the
long-form indefinite marker (0x80) is unsupported; a length byte claiming
more length-octets than available is malformed" (spec.md §4.1). -/
def decodeLength : List Nat → Except CodecErr (Nat × List Nat)
  | [] => .error .malformedEncoding
  | b :: rest =>
    if b < 0x80 then .ok (b, rest)
    else if b = 0x80 then .error .unsupportedEncoding
    else
      let n := b &&& 0x7F
      if rest.length < n then .error .malformedEncoding
      else .ok ((rest.take n).foldl (fun acc x => acc * 256 + x) 0, rest.drop n)

mutual

/-- Modelled from the spec: decoding one TLV node — tag, length, value
region; "a declared length exceeding remaining bytes" is malformed; "a
constructed node recursively decodes children across its full value region
until exhausted; a primitive node never auto-decodes" (spec.md §4.1).
Fuel-based so the definition is structurally recursive and executable;
`unmarshalBinary` supplies fuel exceeding the input length. -/
def decodeNode : Nat → List Nat → Except CodecErr (TLV × List Nat)
  | 0, _ => .error .malformedEncoding
  | Nat.succ fuel, bs =>
    match decodeTag bs with
    | .error e => .error e
    | .ok (tag, r1) =>
      match decodeLength r1 with
      | .error e => .error e
      | .ok (len, r2) =>
        if r2.length < len then .error .malformedEncoding
        else
          let v := r2.take len
          let rest := r2.drop len
          match tag.form with
          | .constructed =>
            match decodeNodes fuel v with
            | .error e => .error e
            | .ok cs => .ok (⟨tag, v, cs⟩, rest)
          | .primitive => .ok (⟨tag, v, []⟩, rest)

/-- Modelled from the spec: decoding a sequence of sibling TLV nodes until
the byte region is exhausted (spec.md §4.1). -/
def decodeNodes : Nat → List Nat → Except CodecErr (List TLV)
  | 0, _ => .error .malformedEncoding
  | Nat.succ _, [] => .ok []
  | Nat.succ fuel, bs =>
    match decodeNode fuel bs with
    | .error e => .error e
    | .ok (node, rest) =>
      match decodeNodes fuel rest with
      | .error e => .error e
      | .ok ns => .ok (node :: ns)

end

/-- Modelled from the spec: `bertlv.TLV.UnmarshalBinary` — decode a single
top-level TLV tree from bytes (spec.md §4.1 `decode(bytes) -> tree`). -/
def unmarshalBinary (bs : List Nat) : Except CodecErr TLV :=
  match decodeNode (bs.length + 1) bs with
  | .error e => .error e
  | .ok (t, _) => .ok t

/-- Modelled from the spec: the integer primitive codec
`primitive.UnmarshalInt` — "two's-complement big-endian over the declared
byte count, sign-extended into the target width on read" (spec.md §4.2);
the `bertlv/primitive` package is not under `src/`. -/
def unmarshalInt : List Nat → Int
  | [] => 0
  | b :: rest =>
    let mag : Nat := (b :: rest).foldl (fun acc x => acc * 256 + x) 0
    if b &&& 0x80 ≠ 0 then (mag : Int) - (256 : Int) ^ (rest.length + 1)
    else (mag : Int)

/-- Go's `uint32(val)` conversion of a (two's-complement) `int32` value:
reduction modulo 2^32 onto a non-negative representative. -/
def uint32OfInt (i : Int) : Nat := (i % (4294967296 : Int)).toNat

/-- Go's `int8` view of an integer value: wrap into [-128, 128). -/
def int8OfInt (i : Int) : Int := (i + 128) % 256 - 128

/-- Structure-layer errors of `v2` (`ErrUnexpectedTag` in the Go sources,
spec.md §7 `UnexpectedTag`). -/
inductive StructErr
  | unexpectedTag
  deriving DecidableEq, Repr

/-- `ExtCardResource` of `src/v2/euiccinfo2.go`: installed-application
count, free non-volatile bytes, free volatile bytes (Go `uint32`). -/
structure ExtCardResource where
  installedApplication : Nat := 0
  freeNonVolatileMemory : Nat := 0
  freeVolatileMemory : Nat := 0
  deriving DecidableEq, Repr

/-- The `switch tag` body of `ExtCardResource.UnmarshalBERTLV`
(`src/v2/euiccinfo2.go:176-199`): tags 0x81/0x82/0x83 with a non-empty field
value set the corresponding field via the integer codec; other tags are
ignored. -/
def extApplyField (e : ExtCardResource) (t : Nat) (fv : List Nat) : ExtCardResource :=
  if t = 0x81 ∧ fv ≠ [] then { e with installedApplication := uint32OfInt (unmarshalInt fv) }
  else if t = 0x82 ∧ fv ≠ [] then { e with freeNonVolatileMemory := uint32OfInt (unmarshalInt fv) }
  else if t = 0x83 ∧ fv ≠ [] then { e with freeVolatileMemory := uint32OfInt (unmarshalInt fv) }
  else e

/-- The manual nested-TLV loop of `ExtCardResource.UnmarshalBERTLV`
(`src/v2/euiccinfo2.go:140-200`): read a one-byte tag, a one-byte length
(long form: low 7 bits count the following big-endian length octets, reading
at most what is available), stop silently when the tag, length, or declared
value region runs past the available bytes.  Fuel-based structural recursion;
each step consumes at least two bytes, so fuel equal to the byte count never
runs out. -/
def parseExtFieldsF : Nat → ExtCardResource → List Nat → ExtCardResource
  | 0, e, _ => e
  | Nat.succ _, e, [] => e
  | Nat.succ _, e, [_] => e
  | Nat.succ fuel, e, t :: l :: rest =>
    if l &&& 0x80 ≠ 0 then
      let n := l &&& 0x7F
      let m := min n rest.length
      let len := (rest.take m).foldl (fun acc x => acc <<< 8 ||| x) 0
      let rest2 := rest.drop m
      if len ≤ rest2.length then
        parseExtFieldsF fuel (extApplyField e t (rest2.take len)) (rest2.drop len)
      else e
    else
      if l ≤ rest.length then
        parseExtFieldsF fuel (extApplyField e t (rest.take l)) (rest.drop l)
      else e

/-- The nested-TLV loop of `ExtCardResource.UnmarshalBERTLV` run over the
whole value region. -/
def parseExtFields (e : ExtCardResource) (value : List Nat) : ExtCardResource :=
  parseExtFieldsF value.length e value

/-- `ExtCardResource.UnmarshalBERTLV` (`src/v2/euiccinfo2.go:128-203`):
require tag (context-specific, primitive, 4), then parse the nested TLVs of
the primitive value region; no error path exists past the tag check. -/
def ExtCardResource.unmarshalBERTLV (e : ExtCardResource) (tlv : TLV) :
    Except StructErr ExtCardResource :=
  if tlv.tag.If .contextSpecific .primitive 4 then .ok (parseExtFields e tlv.value)
  else .error .unexpectedTag

/-- `parseVersion` (`src/v2/euiccinfo2.go:224-238`): empty input gives "",
exactly three bytes give "major.minor.patch", any other length dot-joins the
bytes' decimal values. -/
def parseVersion : List Nat → String
  | [] => ""
  | [a, b, c] => toString a ++ "." ++ toString b ++ "." ++ toString c
  | a :: rest => rest.foldl (fun acc x => acc ++ "." ++ toString x) (toString a)

/-- Dot-joining a list of strings, following the spec's words for the
version fallback: "any other length falls back to dot-joining each byte's
decimal value" (spec.md §4.2).  Spec-side definition used to compare the
source's fold against the specified behaviour. -/
def dotJoin : List String → String
  | [] => ""
  | [s] => s
  | s :: rest => s ++ "." ++ dotJoin rest

/-- `parseBitString` (`src/v2/euiccinfo2.go:300-333`): first byte counts the
unused low-order bits of the final octet; remaining bytes are scanned
MSB-first; a set bit at position `bitIndex < names.length` (and below the
total bit count) appends `names[bitIndex]`. -/
def parseBitString (data : List Nat) (names : List String) : List String :=
  match data with
  | [] => []
  | unusedBits :: bitData =>
    if bitData = [] then []
    else
      let totalBits : Int := (bitData.length * 8 : Int) - (unusedBits : Int)
      let scanByte := fun (st : Nat × List String) (b : Nat) =>
        (List.range 8).foldl
          (fun (st2 : Nat × List String) (i : Nat) =>
            let bitPos := 7 - i
            if (st2.1 : Int) ≥ totalBits then st2
            else
              let res :=
                if st2.1 < names.length ∧ b &&& (1 <<< bitPos) ≠ 0 then
                  st2.2 ++ [names.getD st2.1 ""]
                else st2.2
              (st2.1 + 1, res))
          st
      (bitData.foldl scanByte (0, [])).2

/-- The ordered UICC capability name table of `parseUICCCapability`
(`src/v2/euiccinfo2.go:241-272`). -/
def uiccCapabilityNames : List String :=
  ["contactlessSupport", "usimSupport", "isimSupport", "csimSupport",
   "akaMilenage", "akaCave", "akaTuak128", "akaTuak256", "rfu1", "rfu2",
   "gbaAuthenUsim", "gbaAuthenISim", "mbmsAuthenUsim", "eapClient",
   "javacard", "multos", "multipleUsimSupport", "multipleIsimSupport",
   "multipleCsimSupport", "berTlvFileSupport", "dfLinkSupport", "catTp",
   "getIdentity", "profile-a-x25519", "profile-b-p256", "suciCalculatorApi"]

/-- `parseUICCCapability` (`src/v2/euiccinfo2.go:241-272`). -/
def parseUICCCapability (data : List Nat) : List String :=
  parseBitString data uiccCapabilityNames

/-- The ordered RSP capability name table of `parseRSPCapability`
(`src/v2/euiccinfo2.go:275-285`). -/
def rspCapabilityNames : List String :=
  ["additionalProfile", "crlSupport", "rpmSupport", "testProfileSupport",
   "deviceInfoExtensibilitySupport"]

/-- `parseRSPCapability` (`src/v2/euiccinfo2.go:275-285`). -/
def parseRSPCapability (data : List Nat) : List String :=
  parseBitString data rspCapabilityNames

/-- The ordered rule name table of `parseForbiddenPPR`
(`src/v2/euiccinfo2.go:288-297`). -/
def forbiddenPPRNames : List String :=
  ["pprUpdateControl", "ppr1", "ppr2", "ppr3"]

/-- `parseForbiddenPPR` (`src/v2/euiccinfo2.go:288-297`). -/
def parseForbiddenPPR (data : List Nat) : List String :=
  parseBitString data forbiddenPPRNames

/-- One lowercase hexadecimal digit, as used by Go's `hex.EncodeToString`. -/
def hexDigit (n : Nat) : Char :=
  if n < 10 then Char.ofNat (48 + n) else Char.ofNat (87 + n)

/-- Go's `hex.EncodeToString`: two lowercase hex digits per byte. -/
def hexOfBytes (bs : List Nat) : String :=
  String.mk (bs.foldr (fun b acc => hexDigit ((b >>> 4) &&& 0xF) :: hexDigit (b &&& 0xF) :: acc) [])

/-- Go's `string(bytes)` conversion, embedded as one character per byte
(faithful for the ASCII payloads these fields carry). -/
def stringOfBytes (bs : List Nat) : String :=
  String.mk (bs.map Char.ofNat)

/-- `parsePKIdList` (`src/v2/euiccinfo2.go:336-349`): hex-encode every
non-empty child value, in order. -/
def parsePKIdList (tlv : TLV) : List String :=
  tlv.children.foldl
    (fun acc child => if child.value ≠ [] then acc ++ [hexOfBytes child.value] else acc) []

/-- `EUICCCategory.String` (`src/v2/euiccinfo2.go:56-67`). -/
def categoryString (c : Int) : String :=
  if c = 1 then "basicEuicc"
  else if c = 2 then "mediumEuicc"
  else if c = 3 then "contactlessEuicc"
  else "other"

/-- `CertificationDataObject` of `src/v2/euiccinfo2.go`. -/
structure CertificationDataObject where
  platformLabel : String := ""
  discoveryBaseURL : String := ""
  deriving DecidableEq, Repr

/-- The child dispatch of `CertificationDataObject.UnmarshalBERTLV`
(`src/v2/euiccinfo2.go:211-218`). -/
def certChild (c : CertificationDataObject) (child : TLV) : CertificationDataObject :=
  if child.tag.If .contextSpecific .primitive 0 then
    { c with platformLabel := stringOfBytes child.value }
  else if child.tag.If .contextSpecific .primitive 1 then
    { c with discoveryBaseURL := stringOfBytes child.value }
  else c

/-- `CertificationDataObject.UnmarshalBERTLV` (`src/v2/euiccinfo2.go:206-221`):
require tag (context-specific, constructed, 12), then fold the children. -/
def CertificationDataObject.unmarshalBERTLV (c : CertificationDataObject) (tlv : TLV) :
    Except StructErr CertificationDataObject :=
  if tlv.tag.If .contextSpecific .constructed 12 then .ok (tlv.children.foldl certChild c)
  else .error .unexpectedTag

/-- `EUICCInfo2` of `src/v2/euiccinfo2.go`. -/
structure EUICCInfo2 where
  profileVersion : String := ""
  svn : String := ""
  euiccFirmwareVer : String := ""
  extCardResource : ExtCardResource := {}
  uiccCapability : List String := []
  ts102241Version : String := ""
  globalPlatformVersion : String := ""
  rspCapability : List String := []
  euiccCiPKIdListForVerification : List String := []
  euiccCiPKIdListForSigning : List String := []
  euiccCategory : String := ""
  forbiddenProfilePolicyRules : List String := []
  ppVersion : String := ""
  sasAccreditationNumber : String := ""
  certificationDataObject : CertificationDataObject := {}
  deriving DecidableEq, Repr

/-- The per-child `switch` of `EUICCInfo2.UnmarshalBERTLV`
(`src/v2/euiccinfo2.go:82-121`): dispatch on the child's exact
(class, form, number) triple; unmatched children leave the record
unchanged; only the extCardResource and certificationDataObject branches
can propagate an error. -/
def euiccInfo2Child (e : EUICCInfo2) (child : TLV) : Except StructErr EUICCInfo2 :=
  if child.tag.If .contextSpecific .primitive 1 then
    .ok { e with profileVersion := parseVersion child.value }
  else if child.tag.If .contextSpecific .primitive 2 then
    .ok { e with svn := parseVersion child.value }
  else if child.tag.If .contextSpecific .primitive 3 then
    .ok { e with euiccFirmwareVer := parseVersion child.value }
  else if child.tag.If .contextSpecific .primitive 4 then
    match ExtCardResource.unmarshalBERTLV e.extCardResource child with
    | .error err => .error err
    | .ok r => .ok { e with extCardResource := r }
  else if child.tag.If .contextSpecific .primitive 5 then
    .ok { e with uiccCapability := parseUICCCapability child.value }
  else if child.tag.If .contextSpecific .primitive 6 then
    .ok { e with ts102241Version := parseVersion child.value }
  else if child.tag.If .contextSpecific .primitive 7 then
    .ok { e with globalPlatformVersion := parseVersion child.value }
  else if child.tag.If .contextSpecific .primitive 8 then
    .ok { e with rspCapability := parseRSPCapability child.value }
  else if child.tag.If .contextSpecific .constructed 9 then
    .ok { e with euiccCiPKIdListForVerification := parsePKIdList child }
  else if child.tag.If .contextSpecific .constructed 10 then
    .ok { e with euiccCiPKIdListForSigning := parsePKIdList child }
  else if child.tag.If .contextSpecific .constructed 11 then
    .ok (if child.value ≠ [] then
      { e with euiccCategory := categoryString (int8OfInt (unmarshalInt child.value)) }
    else e)
  else if child.tag.If .contextSpecific .primitive 25 then
    .ok { e with forbiddenProfilePolicyRules := parseForbiddenPPR child.value }
  else if child.tag.If .universal .primitive 4 then
    .ok { e with ppVersion := parseVersion child.value }
  else if child.tag.If .universal .primitive 12 then
    .ok { e with sasAccreditationNumber := stringOfBytes child.value }
  else if child.tag.If .contextSpecific .constructed 12 then
    match CertificationDataObject.unmarshalBERTLV e.certificationDataObject child with
    | .error err => .error err
    | .ok r => .ok { e with certificationDataObject := r }
  else .ok e

/-- The child loop of `EUICCInfo2.UnmarshalBERTLV`
(`src/v2/euiccinfo2.go:77-122`): process children in order, returning the
first error. -/
def euiccInfo2Children : EUICCInfo2 → List TLV → Except StructErr EUICCInfo2
  | e, [] => .ok e
  | e, c :: cs =>
    match euiccInfo2Child e c with
    | .error err => .error err
    | .ok e2 => euiccInfo2Children e2 cs

/-- The fifteen child tag triples recognised by `EUICCInfo2.UnmarshalBERTLV`
(`src/v2/euiccinfo2.go:82-121`). -/
def isKnownChildTag (t : Tag) : Bool :=
  t.If .contextSpecific .primitive 1 || t.If .contextSpecific .primitive 2 ||
  t.If .contextSpecific .primitive 3 || t.If .contextSpecific .primitive 4 ||
  t.If .contextSpecific .primitive 5 || t.If .contextSpecific .primitive 6 ||
  t.If .contextSpecific .primitive 7 || t.If .contextSpecific .primitive 8 ||
  t.If .contextSpecific .constructed 9 || t.If .contextSpecific .constructed 10 ||
  t.If .contextSpecific .constructed 11 || t.If .contextSpecific .primitive 25 ||
  t.If .universal .primitive 4 || t.If .universal .primitive 12 ||
  t.If .contextSpecific .constructed 12

/-- `EUICCInfo2.UnmarshalBERTLV` (`src/v2/euiccinfo2.go:70-125`): accept a
root tagged (context-specific, constructed, 32) or (context-specific,
constructed, 34), then process the immediate children. -/
def EUICCInfo2.unmarshalBERTLV (e : EUICCInfo2) (tlv : TLV) : Except StructErr EUICCInfo2 :=
  if ¬ tlv.tag.If .contextSpecific .constructed 32 ∧
     ¬ tlv.tag.If .contextSpecific .constructed 34 then .error .unexpectedTag
  else euiccInfo2Children e tlv.children

/-- `EventEntry` as consumed by `DiscoverProfiles`
(`src/unnamed/part_001`): event identifier and SM-DP+ address. -/
structure EventEntry where
  eventID : String
  address : String
  deriving DecidableEq, Repr

/-- `DiscoveredProfile` (`src/unnamed/part_001`). -/
structure DiscoveredProfile where
  eventID : String
  smdpAddress : String
  deriving DecidableEq, Repr

/-- `DiscoverProfilesOptions` (`src/unnamed/part_001`); a nil IMEI is the
empty byte list. -/
structure DiscoverProfilesOptions where
  smdsAddress : String := ""
  imei : List Nat := []
  deriving DecidableEq, Repr

/-- `DefaultSMDSAddress` (`src/unnamed/part_001`). -/
def DefaultSMDSAddress : String := "lpa.ds.gsma.com"

/-- `Client.DiscoverProfiles` (`src/unnamed/part_001:73-106`), with the
lower-level `Client.Discovery` call injected as a capability taking the
built SM-DS URL and the IMEI.  Returns the Go pair (profile slice, error):
`none` models a nil slice, `some msg` a non-nil error. -/
def DiscoverProfiles (discovery : String → List Nat → Except String (List EventEntry))
    (opts0 : Option DiscoverProfilesOptions) :
    Option (List DiscoveredProfile) × Option String :=
  let opts := opts0.getD {}
  let smdsAddress := if opts.smdsAddress = "" then DefaultSMDSAddress else opts.smdsAddress
  let smdsURL := "https://" ++ smdsAddress
  match discovery smdsURL opts.imei with
  | .error e => (none, some ("SM-DS discovery failed: " ++ e))
  | .ok eventEntries =>
    (some (eventEntries.map fun entry => { eventID := entry.eventID, smdpAddress := entry.address }),
     none)

/-- The notification record as consumed by `processSingleNotification`:
sequence number and delivery address (the payload is opaque to the
processing control flow). -/
structure PendingNotification where
  sequenceNumber : Nat
  address : String
  deriving DecidableEq, Repr

/-- `NotificationProcessResult` (`src/docs/FEATURE_COMPARISON.md:1383-1388`). -/
structure NotificationProcessResult where
  sequenceNumber : Nat
  success : Bool
  error : Option String
  removed : Bool
  deriving DecidableEq, Repr

/-- `ProcessNotificationsOptions` (`src/docs/FEATURE_COMPARISON.md:1391-1400`). -/
structure ProcessNotificationsOptions where
  autoRemove : Bool := false
  continueOnError : Bool := false
  deriving DecidableEq, Repr

/-- The client capabilities consumed by notification processing, injected:
`ES10b.RetrieveNotificationsList`, `ES9p.HandleNotification`,
`ES10b.RemoveNotificationFromList` (their implementations live outside the
given sources). -/
structure NotifClient where
  retrieveNotificationList : Nat → Except String (List PendingNotification)
  handleNotification : PendingNotification → Except String Unit
  removeNotificationFromList : Nat → Except String Unit

/-- `Client.processSingleNotification`
(`src/docs/FEATURE_COMPARISON.md:1513-1543`): retrieve, deliver, then —
only when auto-remove is on — remove; returns the Go pair
(removed, error). -/
def processSingleNotification (c : NotifClient) (seqNum : Nat) (autoRemove : Bool) :
    Bool × Option String :=
  match c.retrieveNotificationList seqNum with
  | .error e => (false, some ("retrieve notification: " ++ e))
  | .ok notifications =>
    match notifications with
    | [] => (false, some ("notification with sequence number " ++ toString seqNum ++ " not found"))
    | notification :: _ =>
      match c.handleNotification notification with
      | .error e => (false, some ("handle notification: " ++ e))
      | .ok _ =>
        if autoRemove then
          match c.removeNotificationFromList seqNum with
          | .error e => (false, some ("remove notification: " ++ e))
          | .ok _ => (true, none)
        else (false, none)

/-- The per-sequence-number loop of `Client.ProcessNotifications`
(`src/docs/FEATURE_COMPARISON.md:1444-1467`): on a failed notification the
result (success = false, the error, removed as reported) is appended and the
loop either aborts with a top-level error or continues; on success a
(success = true) result is appended. -/
def processNotificationsLoop (c : NotifClient) (opts : ProcessNotificationsOptions) :
    List Nat → List NotificationProcessResult →
    List NotificationProcessResult × Option String
  | [], results => (results, none)
  | seqNum :: rest, results =>
    let pr := processSingleNotification c seqNum opts.autoRemove
    match pr.2 with
    | some e =>
      let r : NotificationProcessResult :=
        { sequenceNumber := seqNum, success := false, error := some e, removed := pr.1 }
      if opts.continueOnError then processNotificationsLoop c opts rest (results ++ [r])
      else (results ++ [r],
        some ("failed to process notification " ++ toString seqNum ++ ": " ++ e))
    | none =>
      processNotificationsLoop c opts rest
        (results ++ [{ sequenceNumber := seqNum, success := true, error := none, removed := pr.1 }])

/-- `Client.ProcessNotifications` (`src/docs/FEATURE_COMPARISON.md:1431-1468`):
nil options default; an empty sequence-number list returns (nil, nil);
otherwise run the loop.  The first component models the Go result slice
(`none` = nil slice). -/
def ProcessNotifications (c : NotifClient) (opts0 : Option ProcessNotificationsOptions)
    (sequenceNumbers : List Nat) :
    Option (List NotificationProcessResult) × Option String :=
  let opts := opts0.getD {}
  if sequenceNumbers = [] then (none, none)
  else
    let out := processNotificationsLoop c opts sequenceNumbers []
    (some out.1, out.2)

/-- `dotJoin` absorbs a pre-joined head: joining with a head that already
ends in a separator-plus-segment re-associates. -/
theorem dotJoin_append_cons (a s : String) (rest : List String) :
    dotJoin ((a ++ "." ++ s) :: rest) = a ++ "." ++ dotJoin (s :: rest) := by
  cases rest with
  | nil => rfl
  | cons r rs => simp [dotJoin, String.append_assoc]

/-- The accumulator fold of `parseVersion` computes `dotJoin` over the
accumulator and the mapped tail. -/
theorem foldl_dotJoin (l : List Nat) :
    ∀ acc : String,
      l.foldl (fun a x => a ++ "." ++ toString x) acc = dotJoin (acc :: l.map toString) := by
  induction l with
  | nil => intro acc; rfl
  | cons x xs ih =>
    intro acc
    calc (x :: xs).foldl (fun a x => a ++ "." ++ toString x) acc
        = xs.foldl (fun a x => a ++ "." ++ toString x) (acc ++ "." ++ toString x) := rfl
      _ = dotJoin ((acc ++ "." ++ toString x) :: xs.map toString) := ih _
      _ = acc ++ "." ++ dotJoin (toString x :: xs.map toString) := dotJoin_append_cons ..
      _ = dotJoin (acc :: (x :: xs).map toString) := by simp [dotJoin]

/-- C9: version decoding maps a 3-byte input to "major.minor.patch" of the
bytes' decimal values (bytes 02 01 00 give "2.1.0"), and every other
non-zero-length input is dot-joined bytewise without error (byte 05 gives
"5"). -/
theorem parseVersion_spec :
    (parseVersion [2, 1, 0] = "2.1.0") ∧
    (parseVersion [5] = "5") ∧
    (∀ a b c : Nat,
      parseVersion [a, b, c] = toString a ++ "." ++ toString b ++ "." ++ toString c) ∧
    (∀ d : List Nat, d ≠ [] → d.length ≠ 3 →
      parseVersion d = dotJoin (d.map toString)) := by
  refine ⟨rfl, rfl, fun a b c => rfl, ?_⟩
  intro d h0 h3
  match d with
  | [] => exact absurd rfl h0
  | [x] => rfl
  | [x, y] => rfl
  | [x, y, z] => exact absurd rfl h3
  | x :: y :: z :: w :: r =>
    show (y :: z :: w :: r).foldl (fun a v => a ++ "." ++ toString v) (toString x) = _
    rw [foldl_dotJoin]
    rfl

/-- Witness for `parseVersion_spec`: the fallback clause at the concrete
2-byte input 07 08. -/
theorem parseVersion_spec_witness :
    parseVersion [7, 8] = dotJoin ([7, 8].map toString) :=
  parseVersion_spec.2.2.2 [7, 8] (by decide) (by decide)

/-- C2 counterexample: decoding the bit string 00 A0 against the name table
["a", "b", "c"] does not give ["a", "b"]; the set bits of A0 sit at 0-based
positions 0 and 2, so position 1 ("b") is clear. -/
theorem parseBitString_00A0_ne :
    parseBitString [0x00, 0xA0] ["a", "b", "c"] ≠ ["a", "b"] := by decide

/-- C2 (amended): decoding the bit string 00 A0 (0 unused bits, value byte
A0 = 1010 0000 with MSB-first positions 0 and 2 set) against the ordered
name table ["a", "b", "c"] yields exactly ["a", "c"]. -/
theorem parseBitString_00A0 :
    parseBitString [0x00, 0xA0] ["a", "b", "c"] = ["a", "c"] := by rfl

/-- The raw bytes of the memory-resource test vector
`840C810105820301E24083020FA0` (`src/unnamed/part_000`). -/
def extCardResourceSample : List Nat :=
  [0x84, 0x0C, 0x81, 0x01, 0x05, 0x82, 0x03, 0x01, 0xE2, 0x40, 0x83, 0x02, 0x0F, 0xA0]

/-- C3: decoding the raw bytes 840C810105820301E24083020FA0 yields a TLV with
the context-specific primitive tag number 4 (the primitive-form outer tag
whose value is a nested TLV sequence), and unmarshalling it as a
memory-resource record succeeds with installed-application count 5, free
non-volatile memory 123456, and free volatile memory 4000. -/
theorem extCardResource_sample_decode :
    ∃ t, unmarshalBinary extCardResourceSample = .ok t ∧
      t.tag = ⟨.contextSpecific, .primitive, 4⟩ ∧
      ExtCardResource.unmarshalBERTLV {} t =
        .ok { installedApplication := 5, freeNonVolatileMemory := 123456,
              freeVolatileMemory := 4000 } :=
  ⟨⟨⟨.contextSpecific, .primitive, 4⟩,
    [0x81, 0x01, 0x05, 0x82, 0x03, 0x01, 0xE2, 0x40, 0x83, 0x02, 0x0F, 0xA0], []⟩,
   by rfl, rfl, by rfl⟩

/-- The nested loop of `ExtCardResource.UnmarshalBERTLV` leaves the record
untouched when the first nested element's short-form declared length runs
past the available bytes. -/
theorem parseExtFieldsF_short_overrun (fuel : Nat) (e : ExtCardResource)
    (t l : Nat) (rest : List Nat) (h1 : l &&& 0x80 = 0) (h2 : rest.length < l) :
    parseExtFieldsF (Nat.succ fuel) e (t :: l :: rest) = e := by
  have hle : ¬ l ≤ rest.length := by omega
  simp [parseExtFieldsF, h1, hle]

/-- C10: with the required context-specific primitive tag number 4, the
memory-resource unmarshal never returns an error, whatever the value bytes;
an empty value, a lone tag byte with no length, and a first element whose
declared length exceeds the remaining bytes all leave every field of the
record unchanged (the zero value, when starting from the zero record). -/
theorem extCardResource_never_errors :
    ∀ (e : ExtCardResource) (v : List Nat) (ch : List TLV),
      (∃ r, ExtCardResource.unmarshalBERTLV e
          ⟨⟨.contextSpecific, .primitive, 4⟩, v, ch⟩ = .ok r) ∧
      (ExtCardResource.unmarshalBERTLV e
          ⟨⟨.contextSpecific, .primitive, 4⟩, [], ch⟩ = .ok e) ∧
      (∀ t, ExtCardResource.unmarshalBERTLV e
          ⟨⟨.contextSpecific, .primitive, 4⟩, [t], ch⟩ = .ok e) ∧
      (∀ t l rest, l &&& 0x80 = 0 → rest.length < l →
        ExtCardResource.unmarshalBERTLV e
          ⟨⟨.contextSpecific, .primitive, 4⟩, t :: l :: rest, ch⟩ = .ok e) := by
  intro e v ch
  refine ⟨⟨parseExtFields e v, rfl⟩, rfl, fun t => rfl, ?_⟩
  intro t l rest h1 h2
  show Except.ok (parseExtFields e (t :: l :: rest)) = Except.ok e
  exact congrArg Except.ok (parseExtFieldsF_short_overrun (rest.length + 1) e t l rest h1 h2)

/-- Witness for `extCardResource_never_errors`: a truncated nested element
(tag 81, declared length 5, no value bytes) is silently ignored and the
zero record is returned without error. -/
theorem extCardResource_never_errors_witness :
    ExtCardResource.unmarshalBERTLV {}
      ⟨⟨.contextSpecific, .primitive, 4⟩, [0x81, 0x05], []⟩ = .ok {} :=
  (extCardResource_never_errors {} [0x81, 0x05] []).2.2.2 0x81 0x05 [] (by decide) (by decide)

/-- With the matching tag already established, the memory-resource unmarshal
returns the parsed record. -/
theorem extUnmarshal_ok (e : ExtCardResource) (tlv : TLV)
    (h : tlv.tag.If .contextSpecific .primitive 4 = true) :
    ExtCardResource.unmarshalBERTLV e tlv = .ok (parseExtFields e tlv.value) := by
  simp [ExtCardResource.unmarshalBERTLV, h]

/-- With the matching tag already established, the certification-data
unmarshal returns the folded record. -/
theorem certUnmarshal_ok (c : CertificationDataObject) (tlv : TLV)
    (h : tlv.tag.If .contextSpecific .constructed 12 = true) :
    CertificationDataObject.unmarshalBERTLV c tlv = .ok (tlv.children.foldl certChild c) := by
  simp [CertificationDataObject.unmarshalBERTLV, h]

/-- The per-child dispatch of `EUICCInfo2.UnmarshalBERTLV` never returns an
error: the two fallible branches re-check exactly the tag that selected
them. -/
theorem euiccInfo2Child_ok (e : EUICCInfo2) (c : TLV) :
    ∃ r, euiccInfo2Child e c = .ok r := by
  unfold euiccInfo2Child
  by_cases h1 : c.tag.If .contextSpecific .primitive 1 = true
  · rw [if_pos h1]; exact ⟨_, rfl⟩
  rw [if_neg h1]
  by_cases h2 : c.tag.If .contextSpecific .primitive 2 = true
  · rw [if_pos h2]; exact ⟨_, rfl⟩
  rw [if_neg h2]
  by_cases h3 : c.tag.If .contextSpecific .primitive 3 = true
  · rw [if_pos h3]; exact ⟨_, rfl⟩
  rw [if_neg h3]
  by_cases h4 : c.tag.If .contextSpecific .primitive 4 = true
  · rw [if_pos h4, extUnmarshal_ok _ _ h4]; exact ⟨_, rfl⟩
  rw [if_neg h4]
  by_cases h5 : c.tag.If .contextSpecific .primitive 5 = true
  · rw [if_pos h5]; exact ⟨_, rfl⟩
  rw [if_neg h5]
  by_cases h6 : c.tag.If .contextSpecific .primitive 6 = true
  · rw [if_pos h6]; exact ⟨_, rfl⟩
  rw [if_neg h6]
  by_cases h7 : c.tag.If .contextSpecific .primitive 7 = true
  · rw [if_pos h7]; exact ⟨_, rfl⟩
  rw [if_neg h7]
  by_cases h8 : c.tag.If .contextSpecific .primitive 8 = true
  · rw [if_pos h8]; exact ⟨_, rfl⟩
  rw [if_neg h8]
  by_cases h9 : c.tag.If .contextSpecific .constructed 9 = true
  · rw [if_pos h9]; exact ⟨_, rfl⟩
  rw [if_neg h9]
  by_cases h10 : c.tag.If .contextSpecific .constructed 10 = true
  · rw [if_pos h10]; exact ⟨_, rfl⟩
  rw [if_neg h10]
  by_cases h11 : c.tag.If .contextSpecific .constructed 11 = true
  · rw [if_pos h11]; exact ⟨_, rfl⟩
  rw [if_neg h11]
  by_cases h12 : c.tag.If .contextSpecific .primitive 25 = true
  · rw [if_pos h12]; exact ⟨_, rfl⟩
  rw [if_neg h12]
  by_cases h13 : c.tag.If .universal .primitive 4 = true
  · rw [if_pos h13]; exact ⟨_, rfl⟩
  rw [if_neg h13]
  by_cases h14 : c.tag.If .universal .primitive 12 = true
  · rw [if_pos h14]; exact ⟨_, rfl⟩
  rw [if_neg h14]
  by_cases h15 : c.tag.If .contextSpecific .constructed 12 = true
  · rw [if_pos h15, certUnmarshal_ok _ _ h15]; exact ⟨_, rfl⟩
  rw [if_neg h15]
  exact ⟨_, rfl⟩

/-- A child whose tag matches none of the fifteen known triples leaves the
record unchanged and raises no error. -/
theorem euiccInfo2Child_skip (e : EUICCInfo2) (c : TLV)
    (h : isKnownChildTag c.tag = false) : euiccInfo2Child e c = .ok e := by
  have n1 : ¬ c.tag.If .contextSpecific .primitive 1 = true := by
    intro hh; simp [isKnownChildTag, hh] at h
  have n2 : ¬ c.tag.If .contextSpecific .primitive 2 = true := by
    intro hh; simp [isKnownChildTag, hh] at h
  have n3 : ¬ c.tag.If .contextSpecific .primitive 3 = true := by
    intro hh; simp [isKnownChildTag, hh] at h
  have n4 : ¬ c.tag.If .contextSpecific .primitive 4 = true := by
    intro hh; simp [isKnownChildTag, hh] at h
  have n5 : ¬ c.tag.If .contextSpecific .primitive 5 = true := by
    intro hh; simp [isKnownChildTag, hh] at h
  have n6 : ¬ c.tag.If .contextSpecific .primitive 6 = true := by
    intro hh; simp [isKnownChildTag, hh] at h
  have n7 : ¬ c.tag.If .contextSpecific .primitive 7 = true := by
    intro hh; simp [isKnownChildTag, hh] at h
  have n8 : ¬ c.tag.If .contextSpecific .primitive 8 = true := by
    intro hh; simp [isKnownChildTag, hh] at h
  have n9 : ¬ c.tag.If .contextSpecific .constructed 9 = true := by
    intro hh; simp [isKnownChildTag, hh] at h
  have n10 : ¬ c.tag.If .contextSpecific .constructed 10 = true := by
    intro hh; simp [isKnownChildTag, hh] at h
  have n11 : ¬ c.tag.If .contextSpecific .constructed 11 = true := by
    intro hh; simp [isKnownChildTag, hh] at h
  have n12 : ¬ c.tag.If .contextSpecific .primitive 25 = true := by
    intro hh; simp [isKnownChildTag, hh] at h
  have n13 : ¬ c.tag.If .universal .primitive 4 = true := by
    intro hh; simp [isKnownChildTag, hh] at h
  have n14 : ¬ c.tag.If .universal .primitive 12 = true := by
    intro hh; simp [isKnownChildTag, hh] at h
  have n15 : ¬ c.tag.If .contextSpecific .constructed 12 = true := by
    intro hh; simp [isKnownChildTag, hh] at h
  unfold euiccInfo2Child
  rw [if_neg n1, if_neg n2, if_neg n3, if_neg n4, if_neg n5, if_neg n6, if_neg n7,
    if_neg n8, if_neg n9, if_neg n10, if_neg n11, if_neg n12, if_neg n13, if_neg n14,
    if_neg n15]

/-- The child loop of `EUICCInfo2.UnmarshalBERTLV` never returns an error. -/
theorem euiccInfo2Children_ok (cs : List TLV) :
    ∀ e : EUICCInfo2, ∃ r, euiccInfo2Children e cs = .ok r := by
  induction cs with
  | nil => intro e; exact ⟨e, rfl⟩
  | cons c cs ih =>
    intro e
    obtain ⟨r, hr⟩ := euiccInfo2Child_ok e c
    obtain ⟨r2, hr2⟩ := ih r
    refine ⟨r2, ?_⟩
    show (match euiccInfo2Child e c with
      | Except.error err => Except.error err
      | Except.ok e2 => euiccInfo2Children e2 cs) = Except.ok r2
    rw [hr]
    exact hr2

/-- Dropping an unknown-tagged child anywhere from the child list does not
change the outcome of the child loop. -/
theorem euiccInfo2Children_skip (c : TLV) (h : isKnownChildTag c.tag = false)
    (cs2 : List TLV) :
    ∀ (cs1 : List TLV) (e : EUICCInfo2),
      euiccInfo2Children e (cs1 ++ c :: cs2) = euiccInfo2Children e (cs1 ++ cs2) := by
  intro cs1
  induction cs1 with
  | nil =>
    intro e
    simp only [List.nil_append]
    show (match euiccInfo2Child e c with
      | Except.error err => Except.error err
      | Except.ok e2 => euiccInfo2Children e2 cs2) = euiccInfo2Children e cs2
    rw [euiccInfo2Child_skip e c h]
  | cons c0 cs1 ih =>
    intro e
    obtain ⟨r, hr⟩ := euiccInfo2Child_ok e c0
    simp only [List.cons_append]
    show (match euiccInfo2Child e c0 with
      | Except.error err => Except.error err
      | Except.ok e2 => euiccInfo2Children e2 (cs1 ++ c :: cs2)) =
      (match euiccInfo2Child e c0 with
      | Except.error err => Except.error err
      | Except.ok e2 => euiccInfo2Children e2 (cs1 ++ cs2))
    rw [hr]
    exact ih r

/-- C5: chip-info unmarshalling succeeds for a root tagged context-specific
constructed number 32 or 34 — both aliases are accepted, and with an
accepted root no error at all is returned — and yields the unexpected-tag
error for every other root tag. -/
theorem euiccInfo2_root_tags :
    ∀ (e : EUICCInfo2) (tlv : TLV),
      ((tlv.tag.If .contextSpecific .constructed 32 = true ∨
        tlv.tag.If .contextSpecific .constructed 34 = true) →
        ∃ r, EUICCInfo2.unmarshalBERTLV e tlv = .ok r) ∧
      (tlv.tag.If .contextSpecific .constructed 32 = false →
        tlv.tag.If .contextSpecific .constructed 34 = false →
        EUICCInfo2.unmarshalBERTLV e tlv = .error .unexpectedTag) := by
  intro e tlv
  constructor
  · intro h
    have hcond : ¬ (¬ tlv.tag.If .contextSpecific .constructed 32 ∧
        ¬ tlv.tag.If .contextSpecific .constructed 34) := by
      rcases h with h | h <;> simp [h]
    unfold EUICCInfo2.unmarshalBERTLV
    rw [if_neg hcond]
    exact euiccInfo2Children_ok tlv.children e
  · intro h32 h34
    have hcond : (¬ tlv.tag.If .contextSpecific .constructed 32 ∧
        ¬ tlv.tag.If .contextSpecific .constructed 34) := by simp [h32, h34]
    unfold EUICCInfo2.unmarshalBERTLV
    rw [if_pos hcond]

/-- Witness for `euiccInfo2_root_tags`: roots BF20 (number 32) and BF22
(number 34) are both accepted; a universal primitive root is rejected with
the unexpected-tag error. -/
theorem euiccInfo2_root_tags_witness :
    (∃ r, EUICCInfo2.unmarshalBERTLV {}
        ⟨⟨.contextSpecific, .constructed, 32⟩, [], []⟩ = .ok r) ∧
    (∃ r, EUICCInfo2.unmarshalBERTLV {}
        ⟨⟨.contextSpecific, .constructed, 34⟩, [], []⟩ = .ok r) ∧
    EUICCInfo2.unmarshalBERTLV {} ⟨⟨.universal, .primitive, 0⟩, [], []⟩ =
      .error .unexpectedTag :=
  ⟨(euiccInfo2_root_tags {} ⟨⟨.contextSpecific, .constructed, 32⟩, [], []⟩).1 (Or.inl rfl),
   (euiccInfo2_root_tags {} ⟨⟨.contextSpecific, .constructed, 34⟩, [], []⟩).1 (Or.inr rfl),
   (euiccInfo2_root_tags {} ⟨⟨.universal, .primitive, 0⟩, [], []⟩).2 rfl rfl⟩

/-- C6: with an accepted root, a child whose (class, form, number) triple
matches none of the known field tags is silently skipped — the unmarshal
result with the child present equals the result without it (so every
destination field keeps its value), and no error is raised. -/
theorem euiccInfo2_skips_unknown :
    ∀ (e : EUICCInfo2) (rt : Tag) (v : List Nat) (cs1 cs2 : List TLV) (c : TLV),
      (rt.If .contextSpecific .constructed 32 = true ∨
       rt.If .contextSpecific .constructed 34 = true) →
      isKnownChildTag c.tag = false →
      EUICCInfo2.unmarshalBERTLV e ⟨rt, v, cs1 ++ c :: cs2⟩ =
        EUICCInfo2.unmarshalBERTLV e ⟨rt, v, cs1 ++ cs2⟩ ∧
      ∃ r, EUICCInfo2.unmarshalBERTLV e ⟨rt, v, cs1 ++ c :: cs2⟩ = .ok r := by
  intro e rt v cs1 cs2 c hroot hc
  constructor
  · have hcond : ¬ (¬ Tag.If rt .contextSpecific .constructed 32 ∧
        ¬ Tag.If rt .contextSpecific .constructed 34) := by
      rcases hroot with h | h <;> simp [h]
    unfold EUICCInfo2.unmarshalBERTLV
    rw [if_neg hcond, if_neg hcond]
    exact euiccInfo2Children_skip c hc cs2 cs1 e
  · exact (euiccInfo2_root_tags e ⟨rt, v, cs1 ++ c :: cs2⟩).1 hroot

/-- Witness for `euiccInfo2_skips_unknown`: an application-class child with
tag number 7 under an accepted root tagged 32 is skipped. -/
theorem euiccInfo2_skips_unknown_witness :
    EUICCInfo2.unmarshalBERTLV {}
        ⟨⟨.contextSpecific, .constructed, 32⟩, [],
         [⟨⟨.application, .primitive, 7⟩, [1], []⟩]⟩ =
      EUICCInfo2.unmarshalBERTLV {} ⟨⟨.contextSpecific, .constructed, 32⟩, [], []⟩ ∧
    ∃ r, EUICCInfo2.unmarshalBERTLV {}
        ⟨⟨.contextSpecific, .constructed, 32⟩, [],
         [⟨⟨.application, .primitive, 7⟩, [1], []⟩]⟩ = .ok r :=
  euiccInfo2_skips_unknown {} ⟨.contextSpecific, .constructed, 32⟩ [] [] []
    ⟨⟨.application, .primitive, 7⟩, [1], []⟩ (Or.inl rfl) rfl

/-- C4: a context-specific primitive child with tag number 4 and a universal
primitive child with tag number 4 present as siblings are dispatched by their
exact (class, form, number) triples to two distinct destination fields — the
context-specific one to the memory-resource record, the universal one to the
PP version string — in either sibling order, with neither value influencing
the other field. -/
theorem euiccInfo2_tag4_no_collision :
    ∀ (e : EUICCInfo2) (rt : Tag) (v v1 v2 : List Nat) (ch1 ch2 : List TLV),
      (rt.If .contextSpecific .constructed 32 = true ∨
       rt.If .contextSpecific .constructed 34 = true) →
      (∃ r, EUICCInfo2.unmarshalBERTLV e
          ⟨rt, v, [⟨⟨.contextSpecific, .primitive, 4⟩, v1, ch1⟩,
                   ⟨⟨.universal, .primitive, 4⟩, v2, ch2⟩]⟩ = .ok r ∧
        r.extCardResource = parseExtFields e.extCardResource v1 ∧
        r.ppVersion = parseVersion v2) ∧
      (∃ r, EUICCInfo2.unmarshalBERTLV e
          ⟨rt, v, [⟨⟨.universal, .primitive, 4⟩, v2, ch2⟩,
                   ⟨⟨.contextSpecific, .primitive, 4⟩, v1, ch1⟩]⟩ = .ok r ∧
        r.extCardResource = parseExtFields e.extCardResource v1 ∧
        r.ppVersion = parseVersion v2) := by
  intro e rt v v1 v2 ch1 ch2 hroot
  have hcond : ¬ (¬ Tag.If rt .contextSpecific .constructed 32 ∧
      ¬ Tag.If rt .contextSpecific .constructed 34) := by
    rcases hroot with h | h <;> simp [h]
  constructor
  · refine ⟨{ e with
        extCardResource := parseExtFields e.extCardResource v1,
        ppVersion := parseVersion v2 }, ?_, rfl, rfl⟩
    unfold EUICCInfo2.unmarshalBERTLV
    rw [if_neg hcond]
    rfl
  · refine ⟨{ e with
        ppVersion := parseVersion v2,
        extCardResource := parseExtFields e.extCardResource v1 }, ?_, rfl, rfl⟩
    unfold EUICCInfo2.unmarshalBERTLV
    rw [if_neg hcond]
    rfl

/-- Witness for `euiccInfo2_tag4_no_collision` at a root tagged 34 with
concrete sibling values. -/
theorem euiccInfo2_tag4_no_collision_witness :
    (∃ r, EUICCInfo2.unmarshalBERTLV {}
        ⟨⟨.contextSpecific, .constructed, 34⟩, [],
         [⟨⟨.contextSpecific, .primitive, 4⟩, [0x81, 0x01, 0x05], []⟩,
          ⟨⟨.universal, .primitive, 4⟩, [2, 1, 0], []⟩]⟩ = .ok r ∧
      r.extCardResource = parseExtFields ({} : ExtCardResource) [0x81, 0x01, 0x05] ∧
      r.ppVersion = parseVersion [2, 1, 0]) :=
  (euiccInfo2_tag4_no_collision {} ⟨.contextSpecific, .constructed, 34⟩ []
    [0x81, 0x01, 0x05] [2, 1, 0] [] [] (Or.inr rfl)).1

/-- Loop step: a successfully processed notification appends a success
result and continues. -/
theorem loop_cons_none (c : NotifClient) (opts : ProcessNotificationsOptions)
    (s : Nat) (rest : List Nat) (acc : List NotificationProcessResult)
    (h : (processSingleNotification c s opts.autoRemove).2 = none) :
    processNotificationsLoop c opts (s :: rest) acc =
      processNotificationsLoop c opts rest
        (acc ++ [{ sequenceNumber := s, success := true, error := none,
                   removed := (processSingleNotification c s opts.autoRemove).1 }]) := by
  simp only [processNotificationsLoop]
  rw [h]

/-- Loop step: a failed notification under continue-on-error appends a
failure result and continues. -/
theorem loop_cons_some_continue (c : NotifClient) (opts : ProcessNotificationsOptions)
    (s : Nat) (rest : List Nat) (acc : List NotificationProcessResult) (e : String)
    (h : (processSingleNotification c s opts.autoRemove).2 = some e)
    (hco : opts.continueOnError = true) :
    processNotificationsLoop c opts (s :: rest) acc =
      processNotificationsLoop c opts rest
        (acc ++ [{ sequenceNumber := s, success := false, error := some e,
                   removed := (processSingleNotification c s opts.autoRemove).1 }]) := by
  simp only [processNotificationsLoop]
  rw [h]
  simp [hco]

/-- Loop step: a failed notification without continue-on-error aborts with
the results so far plus the failure result, and a top-level error. -/
theorem loop_cons_stop (c : NotifClient) (opts : ProcessNotificationsOptions)
    (s : Nat) (rest : List Nat) (acc : List NotificationProcessResult) (e : String)
    (h : (processSingleNotification c s opts.autoRemove).2 = some e)
    (hco : opts.continueOnError = false) :
    processNotificationsLoop c opts (s :: rest) acc =
      (acc ++ [{ sequenceNumber := s, success := false, error := some e,
                 removed := (processSingleNotification c s opts.autoRemove).1 }],
       some ("failed to process notification " ++ toString s ++ ": " ++ e)) := by
  simp only [processNotificationsLoop]
  rw [h]
  simp [hco]

/-- Under continue-on-error the loop processes every notification, produces
one result per notification, and reports no top-level error. -/
theorem loopContinueAll (c : NotifClient) (opts : ProcessNotificationsOptions)
    (hco : opts.continueOnError = true) :
    ∀ (seqs : List Nat) (acc : List NotificationProcessResult),
      ∃ rs, processNotificationsLoop c opts seqs acc = (rs, none) ∧
        rs.length = acc.length + seqs.length := by
  intro seqs
  induction seqs with
  | nil => intro acc; exact ⟨acc, rfl, by simp [processNotificationsLoop]⟩
  | cons s rest ih =>
    intro acc
    cases hpr : (processSingleNotification c s opts.autoRemove).2 with
    | none =>
      obtain ⟨rs, h1, h2⟩ := ih
        (acc ++ [{ sequenceNumber := s, success := true, error := none,
                   removed := (processSingleNotification c s opts.autoRemove).1 }])
      refine ⟨rs, ?_, ?_⟩
      · rw [loop_cons_none c opts s rest acc hpr]; exact h1
      · simp only [List.length_append, List.length_cons, List.length_nil] at h2 ⊢; omega
    | some e =>
      obtain ⟨rs, h1, h2⟩ := ih
        (acc ++ [{ sequenceNumber := s, success := false, error := some e,
                   removed := (processSingleNotification c s opts.autoRemove).1 }])
      refine ⟨rs, ?_, ?_⟩
      · rw [loop_cons_some_continue c opts s rest acc e hpr hco]; exact h1
      · simp only [List.length_append, List.length_cons, List.length_nil] at h2 ⊢; omega

/-- Without continue-on-error the loop stops at the first failing
notification: the results cover exactly the notifications attempted so far
and a top-level error is reported. -/
theorem loopStopsAtFailure (c : NotifClient) (opts : ProcessNotificationsOptions)
    (hco : opts.continueOnError = false) (s : Nat) (post : List Nat) (e : String)
    (hs : (processSingleNotification c s opts.autoRemove).2 = some e) :
    ∀ pre : List Nat,
      (∀ x ∈ pre, (processSingleNotification c x opts.autoRemove).2 = none) →
      ∀ acc, ∃ rs err, processNotificationsLoop c opts (pre ++ s :: post) acc = (rs, some err) ∧
        rs.length = acc.length + pre.length + 1 := by
  intro pre
  induction pre with
  | nil =>
    intro _ acc
    refine ⟨acc ++ [{ sequenceNumber := s, success := false, error := some e,
                      removed := (processSingleNotification c s opts.autoRemove).1 }],
      "failed to process notification " ++ toString s ++ ": " ++ e, ?_, ?_⟩
    · simpa using loop_cons_stop c opts s post acc e hs hco
    · simp
  | cons x pre ih =>
    intro hpre acc
    have hx : (processSingleNotification c x opts.autoRemove).2 = none := hpre x (by simp)
    obtain ⟨rs, err, h1, h2⟩ := ih (fun y hy => hpre y (by simp [hy]))
      (acc ++ [{ sequenceNumber := x, success := true, error := none,
                 removed := (processSingleNotification c x opts.autoRemove).1 }])
    refine ⟨rs, err, ?_, ?_⟩
    · rw [List.cons_append, loop_cons_none c opts x (pre ++ s :: post) acc hx]
      exact h1
    · simp only [List.length_append, List.length_cons, List.length_nil] at h2 ⊢; omega

/-- On a non-empty sequence-number list, `ProcessNotifications` runs the
loop from an empty accumulator. -/
theorem processNotifications_run (c : NotifClient) (opts : ProcessNotificationsOptions)
    (seqs : List Nat) (h : seqs ≠ []) :
    ProcessNotifications c (some opts) seqs =
      (some (processNotificationsLoop c opts seqs []).1,
       (processNotificationsLoop c opts seqs []).2) := by
  simp [ProcessNotifications, h]

/-- C8: batch notification processing stops at the first failing
notification — returning results only for the notifications attempted so far
together with a top-level error — unless continue-on-error is set, in which
case every notification is processed, one result each, with no top-level
error. -/
theorem processNotifications_batch :
    ∀ (c : NotifClient) (opts : ProcessNotificationsOptions),
      (opts.continueOnError = true → ∀ seqs : List Nat, seqs ≠ [] →
        ∃ rs, ProcessNotifications c (some opts) seqs = (some rs, none) ∧
          rs.length = seqs.length) ∧
      (opts.continueOnError = false → ∀ (pre : List Nat) (s : Nat) (post : List Nat) (e : String),
        (∀ x ∈ pre, (processSingleNotification c x opts.autoRemove).2 = none) →
        (processSingleNotification c s opts.autoRemove).2 = some e →
        ∃ rs err, ProcessNotifications c (some opts) (pre ++ s :: post) = (some rs, some err) ∧
          rs.length = pre.length + 1) := by
  intro c opts
  constructor
  · intro hco seqs hne
    obtain ⟨rs, h1, h2⟩ := loopContinueAll c opts hco seqs []
    refine ⟨rs, ?_, ?_⟩
    · rw [processNotifications_run c opts seqs hne, h1]
    · simpa using h2
  · intro hco pre s post e hpre hs
    obtain ⟨rs, err, h1, h2⟩ := loopStopsAtFailure c opts hco s post e hs pre hpre []
    have hne : pre ++ s :: post ≠ [] := by simp
    refine ⟨rs, err, ?_, ?_⟩
    · rw [processNotifications_run c opts (pre ++ s :: post) hne, h1]
    · simpa using h2

/-- A concrete injected client: every notification exists and delivers,
except sequence number 99, which is missing from the eUICC. -/
def c8Client : NotifClient where
  retrieveNotificationList := fun n =>
    if n = 99 then .ok [] else .ok [{ sequenceNumber := n, address := "smdp.example" }]
  handleNotification := fun _ => .ok ()
  removeNotificationFromList := fun _ => .ok ()

/-- Witness for `processNotifications_batch`: with continue-on-error both
notifications [1, 2] yield results and no top-level error; without it, the
batch [1, 99, 2] stops at the failing 99 with two results. -/
theorem processNotifications_batch_witness :
    (∃ rs, ProcessNotifications c8Client
        (some { autoRemove := false, continueOnError := true }) [1, 2] = (some rs, none) ∧
      rs.length = 2) ∧
    (∃ rs err, ProcessNotifications c8Client
        (some { autoRemove := false, continueOnError := false }) ([1] ++ 99 :: [2]) =
        (some rs, some err) ∧ rs.length = 2) :=
  ⟨(processNotifications_batch c8Client
      { autoRemove := false, continueOnError := true }).1 rfl [1, 2] (by decide),
   (processNotifications_batch c8Client
      { autoRemove := false, continueOnError := false }).2 rfl [1] 99 [2]
      "notification with sequence number 99 not found"
      (by intro x hx; simp at hx; subst hx; rfl) rfl⟩

/-- A concrete injected client in which retrieval and delivery succeed but
removal from the eUICC always fails. -/
def c1Client : NotifClient where
  retrieveNotificationList := fun n => .ok [{ sequenceNumber := n, address := "smdp.example" }]
  handleNotification := fun _ => .ok ()
  removeNotificationFromList := fun _ => .error "removal refused"

/-- C1 evaluation: with auto-remove enabled, successful retrieval and
delivery, and a failing removal, the per-notification result carries
success = false — not the claimed success = true — together with
removed = false and the removal error; the batch moreover aborts with a
top-level error. -/
theorem notification_removal_failure_eval :
    ProcessNotifications c1Client
        (some { autoRemove := true, continueOnError := false }) [1] =
      (some [{ sequenceNumber := 1, success := false,
               error := some "remove notification: removal refused", removed := false }],
       some "failed to process notification 1: remove notification: removal refused") ∧
    c1Client.handleNotification { sequenceNumber := 1, address := "smdp.example" } = .ok () :=
  ⟨rfl, rfl⟩

/-- C7: profile discovery with an SM-DS whose discovery call returns zero
events yields the empty profile list with no error; a failing discovery call
(transport or authentication failure) yields a nil profile list and a
non-nil error. -/
theorem discoverProfiles_outcomes :
    ∀ (d : String → List Nat → Except String (List EventEntry))
      (opts : Option DiscoverProfilesOptions),
      ((∀ u imei, d u imei = .ok []) → DiscoverProfiles d opts = (some [], none)) ∧
      ((∀ u imei, ∃ e, d u imei = .error e) →
        ∃ m, DiscoverProfiles d opts = (none, some m)) := by
  intro d opts
  constructor
  · intro h
    simp [DiscoverProfiles, h]
  · intro h
    obtain ⟨msg, hmsg⟩ := h
      ("https://" ++ (if (opts.getD {}).smdsAddress = "" then DefaultSMDSAddress
        else (opts.getD {}).smdsAddress))
      (opts.getD {}).imei
    exact ⟨"SM-DS discovery failed: " ++ msg, by simp [DiscoverProfiles, hmsg]⟩

/-- A discovery capability reporting zero pending events. -/
def discoveryZeroEvents : String → List Nat → Except String (List EventEntry) :=
  fun _ _ => .ok []

/-- A discovery capability failing at the transport level. -/
def discoveryTransportFailure : String → List Nat → Except String (List EventEntry) :=
  fun _ _ => .error "connection refused"

/-- Witness for `discoverProfiles_outcomes` at the two concrete
capabilities. -/
theorem discoverProfiles_outcomes_witness :
    DiscoverProfiles discoveryZeroEvents none = (some [], none) ∧
    ∃ m, DiscoverProfiles discoveryTransportFailure none = (none, some m) :=
  ⟨(discoverProfiles_outcomes discoveryZeroEvents none).1 (fun _ _ => rfl),
   (discoverProfiles_outcomes discoveryTransportFailure none).2 (fun _ _ => ⟨_, rfl⟩)⟩
